import Mathlib

/-!
Shallow embedding of `src/server.js` (Putpluto/plut-project-web): an MQTT
telemetry ingestion server.  The server keeps two cached liveness values
(`brokerStatus`, `mainNodeStatus`), three sqlite databases holding five
tables in total, classifies each inbound MQTT message, broadcasts it over
socket.io, and persists classified records.  We model the mutable server
state explicitly and translate each event handler into a pure function
`State → State × List Emit`.
-/

namespace PlutoServer

/-- A row of a `messages` table (live `pluto.db` or archive
`pluto_archive.db`): `INSERT INTO messages (topic, value, timestamp)`,
with the sqlite AUTOINCREMENT surrogate id. -/
structure FsaeRow where
  id : Nat
  topic : String
  value : String
  timestamp : String
  deriving Repr, DecidableEq

/-- A row of an `earthquake_logs` table:
`INSERT INTO earthquake_logs (node_id, magnitude, timestamp)`. -/
structure EqRow where
  id : Nat
  nodeId : String
  magnitude : String
  timestamp : String
  deriving Repr, DecidableEq

/-- A row of the `battery_logs` table in `plutobattery.db`:
`INSERT INTO battery_logs (node_id, voltage, raw_message, timestamp)`. -/
structure BattRow where
  id : Nat
  nodeId : String
  voltage : String
  rawMessage : String
  timestamp : String
  deriving Repr, DecidableEq

/-- An append-only sqlite table with an AUTOINCREMENT id sequence.
`nextId` models the next value the sequence will assign (sqlite
AUTOINCREMENT starts at 1; deleting the `sqlite_sequence` row resets
it to 1). -/
structure Table (α : Type) where
  rows : List α
  nextId : Nat
  deriving Repr, DecidableEq

/-- A freshly created (or bulk-cleared and sequence-reset) table. -/
def Table.empty {α : Type} : Table α := ⟨[], 1⟩

/-- The in-memory mutable state of the server process: the two cached
status strings (`brokerStatus`, `mainNodeStatus`, lines 53–54), the MQTT
topic filters currently subscribed (line 65), and the five sqlite
tables across the three databases (lines 17–39). -/
structure ServerState where
  brokerStatus : String
  mainNodeStatus : String
  subscriptions : List String
  fsaeWeb : Table FsaeRow
  eqWeb : Table EqRow
  fsaeArchive : Table FsaeRow
  eqArchive : Table EqRow
  battery : Table BattRow
  deriving Repr, DecidableEq

/-- Server state at process start: `brokerStatus = "Disconnected"`,
`mainNodeStatus = "OFFLINE"` (line 54: “Assume offline until the broker
delivers the retained ONLINE”), no subscriptions yet, all tables empty. -/
def initState : ServerState :=
  { brokerStatus := "Disconnected"
    mainNodeStatus := "OFFLINE"
    subscriptions := []
    fsaeWeb := Table.empty
    eqWeb := Table.empty
    fsaeArchive := Table.empty
    eqArchive := Table.empty
    battery := Table.empty }

/-- Events the server emits over socket.io: `io.emit('status_update',…)`,
`io.emit('main_node_status',…)`, `io.emit('mqtt_message',…)`,
`io.emit('history_cleared')`. -/
inductive Emit where
  | statusUpdate (status : String)
  | mainNode (status : String)
  | mqttMessage (topic value timestamp : String)
  | historyCleared
  deriving Repr, DecidableEq

/-- Models `insertFsaeWeb.run(topic, value, now)` and `insertFsaeArchive.run`:
append a row, sequence assigns the id. -/
def insertFsae (t : Table FsaeRow) (topic value now : String) : Table FsaeRow :=
  { rows := t.rows ++ [⟨t.nextId, topic, value, now⟩], nextId := t.nextId + 1 }

/-- Models `insertEqWeb.run(nodeName, value, now)` and `insertEqArchive.run`. -/
def insertEq (t : Table EqRow) (nodeId mag now : String) : Table EqRow :=
  { rows := t.rows ++ [⟨t.nextId, nodeId, mag, now⟩], nextId := t.nextId + 1 }

/-- Models `insertBatt.run(nodeName, voltage, value, now)`. -/
def insertBatt (t : Table BattRow) (nodeId voltage raw now : String) : Table BattRow :=
  { rows := t.rows ++ [⟨t.nextId, nodeId, voltage, raw, now⟩], nextId := t.nextId + 1 }

/-- Character-list prefix test (the meaning of JavaScript
`String.prototype.startsWith`). -/
def listStartsWith : List Char → List Char → Bool
  | [], _ => true
  | _ :: _, [] => false
  | p :: ps, c :: cs => p = c && listStartsWith ps cs

/-- Models `s.startsWith(pre)` in JavaScript (used on lines 94 and 97 for the
topic namespace routing). -/
def strStartsWith (s pre : String) : Bool := listStartsWith pre.data s.data

/-- Scan for `pat` as a contiguous infix of `s`: models JavaScript
`String.prototype.includes`. -/
def hasInfix : List Char → List Char → Bool
  | [], pat => pat.isEmpty
  | c :: t, pat => listStartsWith pat (c :: t) || hasInfix t pat

/-- Models `s.toLowerCase()` in JavaScript, as the list of lowered characters. -/
def strToLower (s : String) : List Char := s.data.map Char.toLower

/-- Models `value.toLowerCase().includes("main node:")` (line 91): the heartbeat
guard that skips all database saving. -/
def isHeartbeat (value : String) : Bool :=
  hasInfix (strToLower value) "main node:".data

/-- Models `value === "ONLINE" || value === "OFFLINE" ||
value.toLowerCase().includes("confirmed")` (line 106). -/
def isStatusMsg (value : String) : Bool :=
  value = "ONLINE" || value = "OFFLINE" || hasInfix (strToLower value) "confirmed".data

/-- Models `topic.split('/')` in JavaScript: split a character list at every
`'/'`; always yields at least one (possibly empty) segment. -/
def splitSlash : List Char → List (List Char)
  | [] => [[]]
  | c :: rest =>
    let r := splitSlash rest
    if c = '/' then [] :: r
    else
      match r with
      | h :: t => (c :: h) :: t
      | [] => [[c]]

/-- Models `topic.split('/').pop()` (line 98): the final path segment of the
topic (`split` never yields an empty array, so `pop` is the last
element). -/
def lastSeg (topic : String) : String :=
  ⟨(splitSlash topic.data).getLastD []⟩

/-- Attempt the tail of the regex `(\d+\.\d+)[Vv](?:,|$)` at the head of
`cs`: a maximal run of ASCII digits, a literal dot, a second maximal run
of digits, one of `V`/`v`, then either end of string or a comma.
Greedy `\d+` needs no backtracking here because the characters required
after each run (`.`, `V`/`v`) are non-digits.  Returns the capture
group `\d+\.\d+`. -/
def parseVoltCore (cs : List Char) : Option String :=
  let p1 := cs.span Char.isDigit
  if p1.1.isEmpty then none
  else
    match p1.2 with
    | '.' :: r2 =>
      let p2 := r2.span Char.isDigit
      if p2.1.isEmpty then none
      else
        match p2.2 with
        | [] => none
        | u :: rest =>
          if u = 'V' ∨ u = 'v' then
            match rest with
            | [] => some ⟨p1.1 ++ '.' :: p2.1⟩
            | ',' :: _ => some ⟨p1.1 ++ '.' :: p2.1⟩
            | _ => none
          else none
    | _ => none

/-- Left-to-right scan for the first match of
`/(?:^|,)(\d+\.\d+)[Vv](?:,|$)/`: `boundary` records whether the current
position is the start of the string or immediately preceded by a comma. -/
def voltScan : Bool → List Char → Option String
  | boundary, cs =>
    match (if boundary then parseVoltCore cs else none) with
    | some cap => some cap
    | none =>
      match cs with
      | [] => none
      | c :: rest => voltScan (c = ',') rest

/-- Models `value.match` with the anchored regex of line 105: the capture
group of the first match, if any. -/
def voltMatch (value : String) : Option String :=
  voltScan true value.data

/-- The battery sub-classification decision of lines 105–110: the voltage
string to persist, if the anchored pattern matches and the payload is not
a status message. -/
def batteryDecision (value : String) : Option String :=
  match voltMatch value with
  | some cap => if isStatusMsg value then none else some cap
  | none => none

/-- The `mqttClient.on('message', …)` handler (lines 70–113), as a pure
transition: LWT status tracking and its broadcast, unconditional
`mqtt_message` broadcast, heartbeat guard, then topic routing with the
battery sub-classification. -/
def onMqttMessage (s : ServerState) (topic value now : String) :
    ServerState × List Emit :=
  let s1 :=
    if topic = "home/earthquake/status" ∧ (value = "ONLINE" ∨ value = "OFFLINE") then
      { s with mainNodeStatus := value }
    else s
  let emits :=
    (if topic = "home/earthquake/status" ∧ (value = "ONLINE" ∨ value = "OFFLINE") then
      [Emit.mainNode value]
    else []) ++ [Emit.mqttMessage topic value now]
  if isHeartbeat value then (s1, emits)
  else if strStartsWith topic "fsae/" then
    ({ s1 with fsaeWeb := insertFsae s1.fsaeWeb topic value now
               fsaeArchive := insertFsae s1.fsaeArchive topic value now }, emits)
  else if strStartsWith topic "home/earthquake/" then
    let nodeName := lastSeg topic
    let s2 := { s1 with eqWeb := insertEq s1.eqWeb nodeName value now
                        eqArchive := insertEq s1.eqArchive nodeName value now }
    match batteryDecision value with
    | some voltage =>
      ({ s2 with battery := insertBatt s2.battery nodeName voltage value now }, emits)
    | none => (s2, emits)
  else (s1, emits)

/-- The `mqttClient.on('connect', …)` handler (lines 63–68): subscribe to
the two namespaces, set `brokerStatus = "ONLINE"`, broadcast it. -/
def onConnect (s : ServerState) : ServerState × List Emit :=
  ({ s with subscriptions := ["fsae/#", "home/earthquake/#"]
            brokerStatus := "ONLINE" },
   [Emit.statusUpdate "ONLINE"])

/-- Transport-level events delivered to the server by the MQTT client. -/
inductive Ev where
  | connect
  | disconnect
  | message (topic value now : String)
  deriving Repr, DecidableEq

/-- Dispatch one transport event.  `server.js` registers handlers only
for `'connect'` and `'message'`; no handler is registered for
`'close'`/`'offline'`/`'disconnect'`, so a transport disconnect changes
no server state and emits nothing (the mqtt client reconnects on its own
with `reconnectPeriod: 1000` and then re-fires `'connect'`). -/
def step (s : ServerState) : Ev → ServerState × List Emit
  | Ev.connect => onConnect s
  | Ev.disconnect => (s, [])
  | Ev.message t v now => onMqttMessage s t v now

/-- Run a sequence of transport events, accumulating broadcasts. -/
def run (s : ServerState) : List Ev → ServerState × List Emit
  | [] => (s, [])
  | e :: es =>
    let (s1, em1) := step s e
    let (s2, em2) := run s1 es
    (s2, em1 ++ em2)

/-- The `io.on('connection', …)` handler (lines 121–124): the events sent
to the newly attached socket only — the two cached statuses, in order,
and nothing else. -/
def onConnection (s : ServerState) : List Emit :=
  [Emit.statusUpdate s.brokerStatus, Emit.mainNode s.mainNodeStatus]

/-- The admin-key guard of `app.delete('/api/history')` (lines 144–145):
`!clientKey || clientKey !== process.env.ADMIN_KEY` — an absent header
(`none`) and an empty header value are both falsy in JavaScript, and an
unset `ADMIN_KEY` (`none`) never strict-equals a header string. -/
def authOK (adminKey clientKey : Option String) : Bool :=
  match clientKey with
  | none => false
  | some k => !(k = "") && (some k = adminKey)

/-- The `app.delete('/api/history', …)` handler (lines 143–161): guard,
then delete all rows of `messages` and `earthquake_logs` in the live db,
delete all rows of `battery_logs` in the battery db, reset their
`sqlite_sequence` entries, and emit `history_cleared`.  Returns the new
state, the HTTP status, and the socket.io emissions.  The archive
database is not touched anywhere in the handler. -/
def clearHistory (adminKey clientKey : Option String) (s : ServerState) :
    ServerState × Nat × List Emit :=
  if authOK adminKey clientKey then
    ({ s with fsaeWeb := Table.empty
              eqWeb := Table.empty
              battery := Table.empty }, 200, [Emit.historyCleared])
  else (s, 403, [])

/-! ## General lemmas about the message handler -/

/-- A topic in the seismic namespace is never in the generic-log
namespace: the two routing prefixes start with different characters. -/
theorem startsWith_home_not_fsae (t : String)
    (h : strStartsWith t "home/earthquake/" = true) :
    strStartsWith t "fsae/" = false := by
  unfold strStartsWith at h ⊢
  have e1 : "home/earthquake/".data = 'h' :: "ome/earthquake/".data := rfl
  have e2 : "fsae/".data = 'f' :: "sae/".data := rfl
  rw [e1] at h
  rw [e2]
  cases hd : t.data with
  | nil => rw [hd] at h; simp [ listStartsWith] at h
  | cons c cs =>
    rw [hd] at h
    simp [ listStartsWith] at h ⊢
    intro hcf
    rw [← hcf] at h
    exact absurd h.1 (by decide)

/-- The socket.io events emitted for one inbound message: the
critical-node status event exactly on the reserved sub-topic with a
sentinel payload, then the unconditional generic message event. -/
theorem snd_onMqttMessage (s : ServerState) (t v n : String) :
    (onMqttMessage s t v n).2 =
      (if t = "home/earthquake/status" ∧ (v = "ONLINE" ∨ v = "OFFLINE") then
        [Emit.mainNode v] else []) ++ [Emit.mqttMessage t v n] := by
  by_cases hh : isHeartbeat v = true <;>
  by_cases hf : strStartsWith t "fsae/" = true <;>
  by_cases he : strStartsWith t "home/earthquake/" = true <;>
  cases hbd : batteryDecision v <;>
  simp [onMqttMessage, hh, hf, he, hbd]

/-- The message handler never changes the cached transport status. -/
theorem fst_brokerStatus (s : ServerState) (t v n : String) :
    (onMqttMessage s t v n).1.brokerStatus = s.brokerStatus := by
  by_cases hh : isHeartbeat v = true <;>
  by_cases hf : strStartsWith t "fsae/" = true <;>
  by_cases he : strStartsWith t "home/earthquake/" = true <;>
  cases hbd : batteryDecision v <;>
  simp [onMqttMessage, hh, hf, he, hbd, apply_ite]

/-- The cached critical-node status after one message: the payload when
the message is a sentinel on the reserved status sub-topic, otherwise
the previous value. -/
theorem fst_mainNodeStatus (s : ServerState) (t v n : String) :
    (onMqttMessage s t v n).1.mainNodeStatus =
      if t = "home/earthquake/status" ∧ (v = "ONLINE" ∨ v = "OFFLINE") then v
      else s.mainNodeStatus := by
  by_cases hA : t = "home/earthquake/status" ∧ (v = "ONLINE" ∨ v = "OFFLINE")
  · obtain ⟨ht, hv⟩ := hA
    subst ht
    have hfs : strStartsWith "home/earthquake/status" "fsae/" = false := by decide
    have hes : strStartsWith "home/earthquake/status" "home/earthquake/" = true := by decide
    rcases hv with hv | hv <;> subst hv <;>
      simp [onMqttMessage, hfs, hes,
        (by decide : isHeartbeat "ONLINE" = false),
        (by decide : isHeartbeat "OFFLINE" = false),
        (by decide : batteryDecision "ONLINE" = none),
        (by decide : batteryDecision "OFFLINE" = none)]
  · rw [if_neg hA]
    by_cases hh : isHeartbeat v = true <;>
    by_cases hf : strStartsWith t "fsae/" = true <;>
    by_cases he : strStartsWith t "home/earthquake/" = true <;>
    cases hbd : batteryDecision v <;>
    simp [onMqttMessage, hA, hh, hf, he, hbd]

/-! ## The claims -/

/-- C1, counterexample: the claim says the cached critical-node status
starts in a distinct Unknown state (neither sentinel).  It does not: the
initial `mainNodeStatus` is the offline sentinel itself (line 54). -/
theorem c1_counterexample :
    ¬ (initState.mainNodeStatus ≠ "ONLINE" ∧ initState.mainNodeStatus ≠ "OFFLINE") := by
  decide

/-- C1, amended: before any message has been received, the cached
critical-node status is the offline sentinel `"OFFLINE"` (the code
assumes the node offline until the broker delivers the retained
status), not an Unknown state. -/
theorem c1_initial_status_offline : initState.mainNodeStatus = "OFFLINE" := rfl

/-- C2, counterexample: after a connect followed by a transport
disconnect, the cached transport status does not flip to Disconnected —
no disconnect handler is registered, so it remains `"ONLINE"`. -/
theorem c2_counterexample :
    (run initState [Ev.connect, Ev.disconnect]).1.brokerStatus = "ONLINE" ∧
    (run initState [Ev.connect, Ev.disconnect]).1.brokerStatus ≠ "Disconnected" := by
  decide

/-- C2, amended: a transport disconnect event leaves the server state
unchanged and emits nothing (no handler is registered); on the
subsequent reconnect the connect handler fires again, reinstating the
two namespace subscriptions, setting the transport status to Online and
rebroadcasting it to all observers. -/
theorem c2_disconnect_noop_reconnect_restores (s : ServerState) :
    step s Ev.disconnect = (s, []) ∧
    (step (step s Ev.disconnect).1 Ev.connect).1.brokerStatus = "ONLINE" ∧
    (step (step s Ev.disconnect).1 Ev.connect).1.subscriptions =
      ["fsae/#", "home/earthquake/#"] ∧
    (step (step s Ev.disconnect).1 Ev.connect).2 = [Emit.statusUpdate "ONLINE"] :=
  ⟨rfl, rfl, rfl, rfl⟩

/-- C3, counterexample: a message on a seismic-namespace topic whose
payload contains the heartbeat marker is not persisted at all — the
heartbeat guard (line 91) returns before the seismic inserts, so no
seismic record is written to either table, contradicting “exactly one
per message”. -/
theorem c3_counterexample :
    strStartsWith "home/earthquake/node1" "home/earthquake/" = true ∧
    ¬ ((onMqttMessage initState "home/earthquake/node1" "Main node: check" "t0").1.eqWeb.rows.length
        = initState.eqWeb.rows.length + 1) ∧
    ¬ ((onMqttMessage initState "home/earthquake/node1" "Main node: check" "t0").1.eqArchive.rows.length
        = initState.eqArchive.rows.length + 1) := by
  decide

/-- C3, amended: for every inbound message on a seismic-namespace topic
whose payload does not contain the heartbeat marker, exactly one seismic
record — nodeId the final path segment of the topic, text the full
payload — is appended to each of the live and archive seismic tables,
regardless of the battery sub-classification outcome (the statement
holds for any payload, status sentinels such as `"OFFLINE"` included). -/
theorem c3_seismic_record_per_message (s : ServerState) (t v n : String)
    (h1 : strStartsWith t "home/earthquake/" = true) (h2 : isHeartbeat v = false) :
    (onMqttMessage s t v n).1.eqWeb.rows =
      s.eqWeb.rows ++ [⟨s.eqWeb.nextId, lastSeg t, v, n⟩] ∧
    (onMqttMessage s t v n).1.eqArchive.rows =
      s.eqArchive.rows ++ [⟨s.eqArchive.nextId, lastSeg t, v, n⟩] := by
  have hf := startsWith_home_not_fsae t h1
  cases hbd : batteryDecision v with
  | none => simp [onMqttMessage, h1, h2, hf, hbd, insertEq, apply_ite]
  | some cap => simp [onMqttMessage, h1, h2, hf, hbd, insertEq, apply_ite]

/-- C3, witness: the amended theorem applied to the status sentinel
payload `"OFFLINE"` on a seismic topic — one record lands in each
seismic table. -/
theorem c3_witness :
    strStartsWith "home/earthquake/node7" "home/earthquake/" = true ∧
    isHeartbeat "OFFLINE" = false ∧
    ((onMqttMessage initState "home/earthquake/node7" "OFFLINE" "t1").1.eqWeb.rows =
      initState.eqWeb.rows ++
        [⟨initState.eqWeb.nextId, lastSeg "home/earthquake/node7", "OFFLINE", "t1"⟩] ∧
    (onMqttMessage initState "home/earthquake/node7" "OFFLINE" "t1").1.eqArchive.rows =
      initState.eqArchive.rows ++
        [⟨initState.eqArchive.nextId, lastSeg "home/earthquake/node7", "OFFLINE", "t1"⟩]) :=
  ⟨by decide, by decide,
    c3_seismic_record_per_message initState "home/earthquake/node7" "OFFLINE" "t1"
      (by decide) (by decide)⟩

/-- C4: every inbound message is broadcast to the observers as a generic
message event regardless of classification, and a message whose payload
contains the heartbeat marker is persisted to none of the five tables. -/
theorem c4_broadcast_superset (s : ServerState) (t v n : String) :
    Emit.mqttMessage t v n ∈ (onMqttMessage s t v n).2 ∧
    (isHeartbeat v = true →
      (onMqttMessage s t v n).1.fsaeWeb = s.fsaeWeb ∧
      (onMqttMessage s t v n).1.eqWeb = s.eqWeb ∧
      (onMqttMessage s t v n).1.fsaeArchive = s.fsaeArchive ∧
      (onMqttMessage s t v n).1.eqArchive = s.eqArchive ∧
      (onMqttMessage s t v n).1.battery = s.battery) := by
  constructor
  · rw [snd_onMqttMessage]; simp
  · intro hh
    simp [onMqttMessage, hh, apply_ite]

/-- C4, witness: a heartbeat payload on a generic-namespace topic is
broadcast but leaves the stores untouched. -/
theorem c4_witness :
    Emit.mqttMessage "fsae/x" "Main node: ok" "t0" ∈
      (onMqttMessage initState "fsae/x" "Main node: ok" "t0").2 ∧
    isHeartbeat "Main node: ok" = true ∧
    (onMqttMessage initState "fsae/x" "Main node: ok" "t0").1.fsaeWeb = initState.fsaeWeb ∧
    (onMqttMessage initState "fsae/x" "Main node: ok" "t0").1.eqWeb = initState.eqWeb ∧
    (onMqttMessage initState "fsae/x" "Main node: ok" "t0").1.battery = initState.battery := by
  have h := c4_broadcast_superset initState "fsae/x" "Main node: ok" "t0"
  have hh := h.2 (by decide)
  exact ⟨h.1, by decide, hh.1, hh.2.1, hh.2.2.2.2⟩

/-- C5, counterexample: a payload that matches the anchored voltage
pattern and is neither sentinel nor contains “confirmed” still yields no
battery record when it contains the heartbeat marker, because the
heartbeat guard (line 91) returns before the battery logic —
contradicting the claim's “exactly when”. -/
theorem c5_counterexample :
    batteryDecision "1.2V,main node: x" = some "1.2" ∧
    (onMqttMessage initState "home/earthquake/node1" "1.2V,main node: x" "t0").1.battery.rows
      = [] := by
  decide

/-- C5, amended: `"12.4V,OK"` matches with capture `"12.4"`,
`"status confirmed 12.4V"` and `"ONLINE"` yield no battery record; and
on a seismic topic with a non-heartbeat payload, a battery record (with
the captured voltage) is appended exactly when the anchored pattern
matches and the payload is neither `"ONLINE"` nor `"OFFLINE"` nor
contains `"confirmed"` case-insensitively. -/
theorem c5_voltage_subclassification :
    batteryDecision "12.4V,OK" = some "12.4" ∧
    batteryDecision "status confirmed 12.4V" = none ∧
    batteryDecision "ONLINE" = none ∧
    ∀ (s : ServerState) (t v n : String),
      strStartsWith t "home/earthquake/" = true → isHeartbeat v = false →
      (onMqttMessage s t v n).1.battery =
        (match batteryDecision v with
         | some voltage => insertBatt s.battery (lastSeg t) voltage v n
         | none => s.battery) := by
  refine ⟨by decide, by decide, by decide, ?_⟩
  intro s t v n h1 h2
  have hf := startsWith_home_not_fsae t h1
  cases hbd : batteryDecision v with
  | none => simp [onMqttMessage, h1, h2, hf, hbd, apply_ite]
  | some cap => simp [onMqttMessage, h1, h2, hf, hbd, apply_ite]

/-- C5, witness: the general rule applied to `"12.4V,OK"` on a seismic
topic, with the resulting battery row spelled out. -/
theorem c5_witness :
    (onMqttMessage initState "home/earthquake/node1" "12.4V,OK" "t0").1.battery =
      (match batteryDecision "12.4V,OK" with
       | some voltage =>
         insertBatt initState.battery (lastSeg "home/earthquake/node1") voltage "12.4V,OK" "t0"
       | none => initState.battery) ∧
    (onMqttMessage initState "home/earthquake/node1" "12.4V,OK" "t0").1.battery.rows =
      [⟨1, "node1", "12.4", "12.4V,OK", "t0"⟩] :=
  ⟨c5_voltage_subclassification.2.2.2 initState "home/earthquake/node1" "12.4V,OK" "t0"
     (by decide) (by decide), by decide⟩

/-- C6: the cached critical-node status changes exactly on the reserved
status sub-topic with payload exactly `"ONLINE"` or `"OFFLINE"`; then it
becomes the payload and a critical-node-status event is emitted (distinct
from, and before, the generic message event); for every other
(topic, payload) pair it is unchanged. -/
theorem c6_critical_node_transitions (s : ServerState) (t v n : String) :
    ((t = "home/earthquake/status" ∧ (v = "ONLINE" ∨ v = "OFFLINE")) →
      (onMqttMessage s t v n).1.mainNodeStatus = v ∧
      (onMqttMessage s t v n).2 = [Emit.mainNode v, Emit.mqttMessage t v n]) ∧
    (¬ (t = "home/earthquake/status" ∧ (v = "ONLINE" ∨ v = "OFFLINE")) →
      (onMqttMessage s t v n).1.mainNodeStatus = s.mainNodeStatus) := by
  constructor
  · intro h
    refine ⟨?_, ?_⟩
    · rw [fst_mainNodeStatus, if_pos h]
    · rw [snd_onMqttMessage, if_pos h]; rfl
  · intro h
    rw [fst_mainNodeStatus, if_neg h]

/-- C6, witness: both directions at concrete inputs — the sentinel on
the status sub-topic updates and broadcasts; an ordinary seismic message
leaves the cached status alone. -/
theorem c6_witness :
    ((onMqttMessage initState "home/earthquake/status" "ONLINE" "t0").1.mainNodeStatus
        = "ONLINE" ∧
      (onMqttMessage initState "home/earthquake/status" "ONLINE" "t0").2 =
        [Emit.mainNode "ONLINE",
         Emit.mqttMessage "home/earthquake/status" "ONLINE" "t0"]) ∧
    (onMqttMessage initState "home/earthquake/node1" "hello" "t0").1.mainNodeStatus =
      initState.mainNodeStatus :=
  ⟨(c6_critical_node_transitions initState "home/earthquake/status" "ONLINE" "t0").1
      ⟨rfl, Or.inl rfl⟩,
   (c6_critical_node_transitions initState "home/earthquake/node1" "hello" "t0").2
      (by decide)⟩

/-- C7: the battery table changes only for seismic-namespace messages,
and when a message yields both records, the seismic record goes to the
two seismic tables, the battery record (with the captured voltage) goes
to the battery table only, and the generic tables of both stores are
untouched. -/
theorem c7_battery_routing :
    (∀ (s : ServerState) (t v n : String), strStartsWith t "home/earthquake/" = false →
      (onMqttMessage s t v n).1.battery = s.battery) ∧
    (∀ (s : ServerState) (t v n cap : String),
      strStartsWith t "home/earthquake/" = true → isHeartbeat v = false →
      batteryDecision v = some cap →
      (onMqttMessage s t v n).1.battery.rows =
        s.battery.rows ++ [⟨s.battery.nextId, lastSeg t, cap, v, n⟩] ∧
      (onMqttMessage s t v n).1.eqWeb.rows =
        s.eqWeb.rows ++ [⟨s.eqWeb.nextId, lastSeg t, v, n⟩] ∧
      (onMqttMessage s t v n).1.eqArchive.rows =
        s.eqArchive.rows ++ [⟨s.eqArchive.nextId, lastSeg t, v, n⟩] ∧
      (onMqttMessage s t v n).1.fsaeWeb = s.fsaeWeb ∧
      (onMqttMessage s t v n).1.fsaeArchive = s.fsaeArchive) := by
  constructor
  · intro s t v n h
    by_cases hh : isHeartbeat v = true <;>
    by_cases hf : strStartsWith t "fsae/" = true <;>
    simp [onMqttMessage, h, hh, hf, apply_ite]
  · intro s t v n cap h1 h2 hbd
    have hf := startsWith_home_not_fsae t h1
    simp [onMqttMessage, h1, h2, hf, hbd, insertBatt, insertEq, apply_ite]

/-- C7, witness: one message producing both records, each landing in its
own table and nowhere else. -/
theorem c7_witness :
    (onMqttMessage initState "home/earthquake/node1" "12.4V,OK" "t9").1.battery.rows =
      initState.battery.rows ++
        [⟨initState.battery.nextId, lastSeg "home/earthquake/node1", "12.4", "12.4V,OK", "t9"⟩] ∧
    (onMqttMessage initState "home/earthquake/node1" "12.4V,OK" "t9").1.eqWeb.rows =
      initState.eqWeb.rows ++
        [⟨initState.eqWeb.nextId, lastSeg "home/earthquake/node1", "12.4V,OK", "t9"⟩] ∧
    (onMqttMessage initState "home/earthquake/node1" "12.4V,OK" "t9").1.eqArchive.rows =
      initState.eqArchive.rows ++
        [⟨initState.eqArchive.nextId, lastSeg "home/earthquake/node1", "12.4V,OK", "t9"⟩] ∧
    (onMqttMessage initState "home/earthquake/node1" "12.4V,OK" "t9").1.fsaeWeb =
      initState.fsaeWeb ∧
    (onMqttMessage initState "home/earthquake/node1" "12.4V,OK" "t9").1.fsaeArchive =
      initState.fsaeArchive :=
  c7_battery_routing.2 initState "home/earthquake/node1" "12.4V,OK" "t9" "12.4"
    (by decide) (by decide) (by decide)

/-- C8: an attaching observer receives exactly the two cached liveness
values, in order, and nothing else; in particular an observer attaching
after the critical node reported `"ONLINE"` receives `"ONLINE"` without
any new transport message. -/
theorem c8_attach_replays_cached_status (s : ServerState) (n : String) :
    onConnection s = [Emit.statusUpdate s.brokerStatus, Emit.mainNode s.mainNodeStatus] ∧
    onConnection (onMqttMessage s "home/earthquake/status" "ONLINE" n).1 =
      [Emit.statusUpdate s.brokerStatus, Emit.mainNode "ONLINE"] := by
  refine ⟨rfl, ?_⟩
  unfold onConnection
  rw [fst_brokerStatus, fst_mainNodeStatus, if_pos ⟨rfl, Or.inl rfl⟩]

/-- C9: the bulk-clear operation never touches the archive store's
tables, and when authorized it empties the live store's two tables and
the battery store's table, resetting their id sequences to 1. -/
theorem c9_clear_preserves_archive (adminKey clientKey : Option String) (s : ServerState) :
    (clearHistory adminKey clientKey s).1.fsaeArchive = s.fsaeArchive ∧
    (clearHistory adminKey clientKey s).1.eqArchive = s.eqArchive ∧
    (authOK adminKey clientKey = true →
      (clearHistory adminKey clientKey s).1.fsaeWeb = Table.empty ∧
      (clearHistory adminKey clientKey s).1.eqWeb = Table.empty ∧
      (clearHistory adminKey clientKey s).1.battery = Table.empty) := by
  unfold clearHistory
  by_cases h : authOK adminKey clientKey = true <;> simp [h]

/-- C9, witness: an authorized clear on a state holding an archived
generic record — the archive keeps its row, the live and battery tables
are emptied with their sequences reset. -/
theorem c9_witness :
    (clearHistory (some "k1") (some "k1")
        (onMqttMessage initState "fsae/a" "x" "t0").1).1.fsaeArchive =
      (onMqttMessage initState "fsae/a" "x" "t0").1.fsaeArchive ∧
    (clearHistory (some "k1") (some "k1")
        (onMqttMessage initState "fsae/a" "x" "t0").1).1.eqArchive =
      (onMqttMessage initState "fsae/a" "x" "t0").1.eqArchive ∧
    ((clearHistory (some "k1") (some "k1")
        (onMqttMessage initState "fsae/a" "x" "t0").1).1.fsaeWeb = Table.empty ∧
     (clearHistory (some "k1") (some "k1")
        (onMqttMessage initState "fsae/a" "x" "t0").1).1.eqWeb = Table.empty ∧
     (clearHistory (some "k1") (some "k1")
        (onMqttMessage initState "fsae/a" "x" "t0").1).1.battery = Table.empty) := by
  have h := c9_clear_preserves_archive (some "k1") (some "k1")
    (onMqttMessage initState "fsae/a" "x" "t0").1
  exact ⟨h.1, h.2.1, h.2.2 (by decide)⟩

/-- C10: a bulk-clear request whose admin-key header is absent or not
equal to the configured admin key is rejected with 403, leaves the whole
state (every table in every store) unchanged and emits nothing. -/
theorem c10_unauthorized_clear_rejected (adminKey clientKey : Option String)
    (s : ServerState) (h : clientKey = none ∨ clientKey ≠ adminKey) :
    clearHistory adminKey clientKey s = (s, 403, []) := by
  have hfalse : authOK adminKey clientKey = false := by
    cases hk : clientKey with
    | none => rfl
    | some k =>
      rcases h with h | h
      · rw [hk] at h; exact absurd h (by simp)
      · rw [hk] at h
        have hd : (decide (some k = adminKey)) = false := decide_eq_false h
        simp [authOK, hd]
  simp [clearHistory, hfalse]

/-- C10, witness: a wrong key is rejected and the state is returned
untouched. -/
theorem c10_witness :
    clearHistory (some "secret") (some "wrong") initState = (initState, 403, []) :=
  c10_unauthorized_clear_rejected (some "secret") (some "wrong") initState
    (Or.inr (by decide))

end PlutoServer
